import Mathlib

/-
Shallow embedding of attorch/dataset.py: dataset adapters (H5Dataset,
MultiTensorDataset, NumpyDataset, ListDataset), the per-sample transform
pipeline (DataTransform, TransformFromFuncs, ToTensor, Chain) and the
to_variable conversion helper.  Python assertion failures and runtime
errors are modelled with Except; numpy/torch arrays are modelled as
dtype-tagged lists of rows, with numeric values kept exact (float
rounding is abstracted away, which no claim here depends on).
-/

namespace Attorch

/-- Python-level errors raised by the code under study: assertion failures
(with their message), TypeError (e.g. calling a non-callable) and
IndexError (out-of-range indexed access). -/
inductive PyErr where
  | assertionError (msg : String)
  | typeError
  | indexError
deriving DecidableEq

/-- Array dtypes relevant to the code: some raw integer dtype and float32
(the target of the coercion in MultiTensorDataset). -/
inductive DType where
  | int64
  | float32
deriving DecidableEq

/-- One slice along the first dimension of an array; entries abstracted
as exact integers. -/
abbrev Row := List Int

/-- A numpy array: a dtype tag plus its slices along the first dimension. -/
structure NpArray where
  dtype : DType
  rows : List Row
deriving DecidableEq

/-- numpy astype: retags the dtype.  Numeric values are modelled as exact,
so the cast keeps the entries. -/
def NpArray.astype (a : NpArray) (dt : DType) : NpArray := ⟨dt, a.rows⟩

/-- The .shape attribute of a (2-D) numpy array, as the tuple of sizes. -/
def NpArray.shape (a : NpArray) : List Nat :=
  match a.rows.head? with
  | some r => [a.rows.length, r.length]
  | none => [a.rows.length]

/-- shape[0]: the size of the first dimension. -/
def NpArray.shape0 (a : NpArray) : Nat := a.rows.length

/-- A torch tensor, as produced by torch.from_numpy. -/
structure Tensor where
  dtype : DType
  rows : List Row
deriving DecidableEq

/-- torch.from_numpy: wraps the numpy array as a tensor sharing its data. -/
def torchFromNumpy (a : NpArray) : Tensor := ⟨a.dtype, a.rows⟩

/-- t.size(0): the size of the tensor's first dimension. -/
def Tensor.size0 (t : Tensor) : Nat := t.rows.length

/-- Values flowing through per-sample transforms: a 1-D numpy slice, a 1-D
torch tensor slice, or a python scalar. -/
inductive Val where
  | npRow (dt : DType) (r : Row)
  | tRow (dt : DType) (r : Row)
  | pyInt (n : Int)
deriving DecidableEq

/-- torch.from_numpy lifted to item elements.  In the code it is only ever
applied to numpy slices fetched from the backing store; other values are
left untouched by the model. -/
def fromNumpyVal : Val → Val
  | .npRow dt r => .tRow dt r
  | v => v

/-- The face a dataset object shows to transform initialization: its
ordered field keys (self.data_keys) and its dynamically attached
attributes, looked up by name (models hasattr/getattr for the
per-field hook attributes whose names end in _transform). -/
structure DatasetView where
  data_keys : List String
  attr : String → Option (Val → Val)

/-- State of a TransformFromFuncs instance: the list of field names found
to carry a custom hook (self.transformees) and the ordered list of bound
per-field functions (self._transforms). -/
structure TransformFromFuncs where
  transformees : List String
  transforms : List (Val → Val)

/-- TransformFromFuncs.__init__: transformees starts empty (the bound
function list is only created by initialization; the model starts it
empty as well). -/
def TransformFromFuncs.new : TransformFromFuncs := ⟨[], []⟩

/-- The loop body of TransformFromFuncs.initialize: for each key d, bind
getattr(dataset, d + "_transform") when present (recording d), otherwise
bind the identity.  Returns (bound functions, recorded field names). -/
def tffLoop (ds : DatasetView) : List String → List (Val → Val) × List String
  | [] => ([], [])
  | d :: rest =>
    let p := tffLoop ds rest
    match ds.attr (d ++ "_transform") with
    | some f => (f :: p.1, d :: p.2)
    | none => ((fun x => x) :: p.1, p.2)

/-- TransformFromFuncs.initialize(dataset): rebuilds self._transforms from
scratch but appends the customized field names onto the existing
self.transformees list (models DataTransform.initialize). -/
def TransformFromFuncs.setup (t : TransformFromFuncs) (ds : DatasetView) :
    TransformFromFuncs :=
  ⟨t.transformees ++ (tffLoop ds ds.data_keys).2, (tffLoop ds ds.data_keys).1⟩

/-- TransformFromFuncs.__call__(item): zip the bound functions with the
item (python zip truncates to the shorter of the two). -/
def TransformFromFuncs.call (t : TransformFromFuncs) (item : List Val) :
    List Val :=
  List.zipWith (fun tr it => tr it) t.transforms item

/-- TransformFromFuncs.__repr__: the class name with the recorded
customized field names joined by a comma. -/
def TransformFromFuncs.descr (t : TransformFromFuncs) : String :=
  "TransformFromFuncs(" ++ String.intercalate (", ") t.transformees ++ ")"

/-- The DataTransform hierarchy: TransformFromFuncs, ToTensor and Chain. -/
inductive Transform where
  | fromFuncs (t : TransformFromFuncs)
  | toTensor
  | chain (ts : List Transform)

mutual

/-- DataTransform.initialize dispatched over the hierarchy: a no-op for
ToTensor, the rebuild-and-append for TransformFromFuncs, and recursive
initialization of every child in order for Chain. -/
def Transform.setup : Transform → DatasetView → Transform
  | .fromFuncs t, ds => .fromFuncs (t.setup ds)
  | .toTensor, _ => .toTensor
  | .chain ts, ds => .chain (setupList ts ds)

/-- Chain.initialize's loop over the children. -/
def setupList : List Transform → DatasetView → List Transform
  | [], _ => []
  | t :: ts, ds => Transform.setup t ds :: setupList ts ds

end

mutual

/-- __call__ dispatched over the hierarchy: TransformFromFuncs zips its
bound functions, ToTensor maps torch.from_numpy over the item, and Chain
threads the item through its children in order. -/
def Transform.call : Transform → List Val → List Val
  | .fromFuncs t, item => t.call item
  | .toTensor, item => item.map fromNumpyVal
  | .chain ts, item => callChain ts item

/-- Chain.__call__'s loop: item = tr(item) for each child in order. -/
def callChain : List Transform → List Val → List Val
  | [], item => item
  | t :: ts, item => callChain ts (Transform.call t item)

end

/-- The h5py file handle: a keyed store of named arrays. -/
structure H5File where
  entries : List (String × NpArray)

/-- Key lookup (self.fid[key]); none models the key being absent, i.e.
`key in self.fid` being false. -/
def H5File.find (f : H5File) (k : String) : Option NpArray :=
  (f.entries.find? (fun e => e.1 == k)).map (fun e => e.2)

/-- The validation loop of H5Dataset.__init__, with m the running first
length: asserts each key is in the file (message naming the key) and that
its length matches m (fixed message), returning the final m. -/
def h5loop (fid : H5File) (m : Option Nat) : List String → Except PyErr (Option Nat)
  | [] => .ok m
  | key :: rest =>
    match fid.find key with
    | none => .error (.assertionError ("Could not find " ++ key ++ " in file"))
    | some a =>
      match m with
      | none => h5loop fid (some a.rows.length) rest
      | some n =>
        if n = a.rows.length then h5loop fid (some n) rest
        else .error (.assertionError ("Length of datasets do not match"))

/-- The H5Dataset adapter: the open file handle, the ordered field keys,
the validated common length (self._len) and the initialized transform. -/
structure H5Dataset where
  fid : H5File
  data_keys : List String
  mlen : Option Nat
  transform : Transform

/-- H5Dataset.__init__: runs the validation loop, installs the default
Chain(TransformFromFuncs(), ToTensor()) when no transform is given, and
initializes the transform against the dataset (whose relevant face is its
data_keys together with its attached hook attributes `attr`). -/
def H5Dataset.init (fid : H5File) (data_keys : List String)
    (attr : String → Option (Val → Val)) (transform : Option Transform) :
    Except PyErr H5Dataset :=
  match h5loop fid none data_keys with
  | .error e => .error e
  | .ok m =>
    let tr := match transform with
      | none => Transform.chain [.fromFuncs TransformFromFuncs.new, .toTensor]
      | some t => t
    .ok ⟨fid, data_keys, m, tr.setup ⟨data_keys, attr⟩⟩

/-- self.fid[d][i]: fetch the i-th slice of the array stored under key d,
as a numpy value; none when the key is absent or i is out of range. -/
def H5File.fetchRow (fid : H5File) (d : String) (i : Nat) : Option Val :=
  (fid.find d).bind (fun a => (a.rows.get? i).map (fun r => Val.npRow a.dtype r))

/-- The tuple comprehension of H5Dataset.__getitem__: gathers one slice per
field key, left to right, failing at the first out-of-range access. -/
def gatherH5 (fid : H5File) (i : Nat) : List String → Except PyErr (List Val)
  | [] => .ok []
  | d :: rest =>
    match fid.fetchRow d i with
    | none => .error .indexError
    | some v =>
      match gatherH5 fid i rest with
      | .error e => .error e
      | .ok vs => .ok (v :: vs)

/-- H5Dataset.__getitem__(item): the raw tuple threaded through the
transform. -/
def H5Dataset.getitem (ds : H5Dataset) (i : Nat) : Except PyErr (List Val) :=
  match gatherH5 ds.fid i ds.data_keys with
  | .error e => .error e
  | .ok item => .ok (ds.transform.call item)

/-- The shared first-dimension check loop of MultiTensorDataset.__init__
and NumpyDataset.__init__: every array's shape[0] must equal the first
array's shape[0] (vacuously true when there are no arrays). -/
def sameFirstDim (data : List NpArray) : Bool :=
  match data with
  | [] => true
  | d0 :: _ => data.all (fun d => d.shape0 == d0.shape0)

/-- keyword options passed to the Variable constructor (**kwargs),
abstracted as a list of named boolean flags. -/
abbrev Opts := List (String × Bool)

/-- torch.autograd.Variable(v, **kwargs) around a whole stored tensor. -/
structure TVariable where
  data : Tensor
  opts : Opts
deriving DecidableEq

/-- The MultiTensorDataset adapter: the coerced stored tensors and the
per-access transform (defaulting to the identity lambda). -/
structure MultiTensorDataset where
  data : List Tensor
  transform : List Val → List Val

/-- MultiTensorDataset.__init__: asserts all arrays share their first
dimension, then eagerly stores torch.from_numpy(d.astype(float32)) for
each array; a missing transform defaults to the identity. -/
def MultiTensorDataset.init (data : List NpArray)
    (transform : Option (List Val → List Val)) :
    Except PyErr MultiTensorDataset :=
  if sameFirstDim data then
    .ok ⟨data.map (fun d => torchFromNumpy (d.astype .float32)),
         transform.getD (fun x => x)⟩
  else .error (.assertionError ("datasets must have same first dimension"))

/-- The tuple comprehension of MultiTensorDataset.__getitem__: index every
stored tensor along the first dimension, left to right. -/
def gatherT (i : Nat) : List Tensor → Except PyErr (List Val)
  | [] => .ok []
  | d :: rest =>
    match d.rows.get? i with
    | none => .error .indexError
    | some r =>
      match gatherT i rest with
      | .error e => .error e
      | .ok vs => .ok (Val.tRow d.dtype r :: vs)

/-- MultiTensorDataset.__getitem__(index): the indexed tuple threaded
through the transform. -/
def MultiTensorDataset.getitem (ds : MultiTensorDataset) (i : Nat) :
    Except PyErr (List Val) :=
  match gatherT i ds.data with
  | .error e => .error e
  | .ok ret => .ok (ds.transform ret)

/-- MultiTensorDataset.__len__: self.data[0].size(0); indexing an empty
tuple raises. -/
def MultiTensorDataset.len (ds : MultiTensorDataset) : Except PyErr Nat :=
  match ds.data.head? with
  | none => .error .indexError
  | some d => .ok d.size0

/-- MultiTensorDataset.as_variables(**kwargs): a tuple with one Variable
wrapper per stored tensor.  The method reads self.data and assigns
nothing, so the adapter state it returns alongside is the receiver
itself. -/
def MultiTensorDataset.as_variables (ds : MultiTensorDataset)
    (kwargs : Opts) : List TVariable × MultiTensorDataset :=
  (ds.data.map (fun v => ⟨v, kwargs⟩), ds)

/-- Python runtime values for the shape-access model: a number, a tuple of
numbers (what the .shape attribute of a numpy array is), or a callable. -/
inductive PyVal where
  | vnat (n : Nat)
  | vtuple (xs : List Nat)
  | vfun (f : Nat → Nat)

/-- A python call v(arg): applies a callable; calling any non-callable
value (such as a tuple) raises TypeError. -/
def pyCall (v : PyVal) (arg : Nat) : Except PyErr PyVal :=
  match v with
  | .vfun f => .ok (.vnat (f arg))
  | _ => .error .typeError

/-- The NumpyDataset adapter: the raw arrays, stored without coercion. -/
structure NumpyDataset where
  data : List NpArray

/-- NumpyDataset.__init__: asserts all arrays share their first dimension
and stores them as given. -/
def NumpyDataset.init (data : List NpArray) : Except PyErr NumpyDataset :=
  if sameFirstDim data then .ok ⟨data⟩
  else .error (.assertionError ("datasets must have same first dimension"))

/-- The tuple comprehension of NumpyDataset.__getitem__. -/
def gatherNp (i : Nat) : List NpArray → Except PyErr (List Val)
  | [] => .ok []
  | d :: rest =>
    match d.rows.get? i with
    | none => .error .indexError
    | some r =>
      match gatherNp i rest with
      | .error e => .error e
      | .ok vs => .ok (Val.npRow d.dtype r :: vs)

/-- NumpyDataset.__getitem__(index): the indexed tuple, untransformed. -/
def NumpyDataset.getitem (ds : NumpyDataset) (i : Nat) :
    Except PyErr (List Val) :=
  gatherNp i ds.data

/-- NumpyDataset.__len__: the source reads self.data[0].shape(0) - the
shape attribute (a tuple) applied as a function - so after the first
array is fetched the call itself is evaluated by pyCall. -/
def NumpyDataset.len (ds : NumpyDataset) : Except PyErr PyVal :=
  match ds.data.head? with
  | none => .error .indexError
  | some d => pyCall (.vtuple d.shape) 0

/-- An element of the sequence produced by to_variable: either the
original value passed through, or a Variable wrapper (with or without a
preceding .cuda() device move). -/
inductive VElem where
  | plain (v : Val)
  | varWrap (v : Val) (opts : Opts)
  | varWrapCuda (v : Val) (opts : Opts)
deriving DecidableEq

/-- The per-element body of to_variable: zip the boolean mask with the
element (python zip truncates to the shorter); mask-true positions are
wrapped (after a device move when cuda is set), mask-false positions pass
through. -/
def convertOne (mask : List Bool) (cuda : Bool) (kwargs : Opts)
    (elem : List Val) : List VElem :=
  List.zipWith
    (fun f e =>
      if f then
        (if cuda then VElem.varWrapCuda e kwargs else VElem.varWrap e kwargs)
      else VElem.plain e)
    mask elem

/-- to_variable(iter, cuda, filter, **kwargs): when filter is None it is
inferred on the first element as len(elem) * (True,) and - being a
rebinding of the parameter - stays fixed for all later elements.  Each
element is converted by the zip body.  (The scalar branch of the
inference, for elements that are not tuples, is outside the modelled
input type.) -/
def to_variable (it : List (List Val)) (cuda : Bool)
    (mask : Option (List Bool)) (kwargs : Opts) : List (List VElem) :=
  match it with
  | [] => []
  | elem :: rest =>
    let f := mask.getD (List.replicate elem.length true)
    convertOne f cuda kwargs elem :: to_variable rest cuda (some f) kwargs

/-- The ListDataset adapter: an optional transform and the owned
sequences. -/
structure ListDataset where
  transform : Option (List Val → List Val)
  data : List (List Val)

/-- The validation loop of ListDataset.__init__: every sequence's length
must equal the first sequence's length. -/
def sameListLen (data : List (List Val)) : Bool :=
  match data with
  | [] => true
  | d0 :: _ => data.all (fun d => d.length == d0.length)

/-- ListDataset.__init__. -/
def ListDataset.init (data : List (List Val))
    (transform : Option (List Val → List Val)) : Except PyErr ListDataset :=
  if sameListLen data then .ok ⟨transform, data⟩
  else .error (.assertionError ("datasets must have same first dimension"))

/-- The tuple comprehension of ListDataset.__getitem__. -/
def gatherL (i : Nat) : List (List Val) → Except PyErr (List Val)
  | [] => .ok []
  | d :: rest =>
    match d.get? i with
    | none => .error .indexError
    | some v =>
      match gatherL i rest with
      | .error e => .error e
      | .ok vs => .ok (v :: vs)

/-- ListDataset.__getitem__(index): the gathered tuple, through the
transform when one is set. -/
def ListDataset.getitem (ds : ListDataset) (i : Nat) :
    Except PyErr (List Val) :=
  match gatherL i ds.data with
  | .error e => .error e
  | .ok t =>
    .ok (match ds.transform with
         | some tr => tr t
         | none => t)

/-- ListDataset.__len__: len(self.data) - the number of owned sequences,
not their common length. -/
def ListDataset.len (ds : ListDataset) : Nat := ds.data.length

/-- Substring occurrence on character lists: does pat occur contiguously? -/
def leadsWith : List Char → List Char → Bool
  | [], _ => true
  | _ :: _, [] => false
  | a :: as, b :: bs => a == b && leadsWith as bs

/-- pat occurs contiguously somewhere in s. -/
def listOccurs (pat : List Char) (s : List Char) : Bool :=
  match s with
  | [] => leadsWith pat []
  | c :: rest => leadsWith pat (c :: rest) || listOccurs pat rest

/-- "msg names key": the key appears as a contiguous substring of the
message. -/
def namesKey (key msg : String) : Bool := listOccurs key.toList msg.toList

/-- The spec-side expression to_floating_point(raw_field[i]): the i-th
slice of a raw array, coerced to float32 and viewed as a tensor value
(torch.from_numpy of the coerced slice). -/
def toFloatSlice (d : NpArray) (i : Nat) : Val :=
  Val.tRow DType.float32 (d.rows.getD i [])

/-- A concrete backing file whose keys a and b store arrays of different
first length (1 and 2). -/
def fidMM : H5File := ⟨[("a", ⟨.int64, [[1]]⟩), ("b", ⟨.int64, [[1], [2]]⟩)]⟩

/-- A concrete two-field backing file with consistent lengths. -/
def fidXY : H5File :=
  ⟨[("x", ⟨.int64, [[1], [2]]⟩), ("y", ⟨.int64, [[5], [6]]⟩)]⟩

/-- A concrete custom hook, attached below under the name x_transform. -/
def fx : Val → Val := fun _ => Val.pyInt 42

/-- Hook attributes of the dataset over fidXY: only x_transform is set. -/
def attrX : String → Option (Val → Val) :=
  fun s => if s == "x_transform" then some fx else none

/-- The adapter H5Dataset.init builds over fidXY with a bare
TransformFromFuncs transform and hook attributes attrX. -/
def dsXY : H5Dataset :=
  ⟨fidXY, ["x", "y"], some 2, .fromFuncs ⟨["x"], [fx, fun x => x]⟩⟩

/-- A dataset view with one field and no custom hooks. -/
def c3view : DatasetView := ⟨["a"], fun _ => none⟩

/-- A dataset view whose single field x carries a custom hook. -/
def vX : DatasetView :=
  ⟨["x"], fun s => if s == "x_transform" then some (fun v => v) else none⟩

/-- The ListDataset adapter over the two sequences [1,2,3] and [9,8,7]. -/
def dsL : ListDataset :=
  ⟨none, [[.pyInt 1, .pyInt 2, .pyInt 3], [.pyInt 9, .pyInt 8, .pyInt 7]]⟩

/-- Two concrete raw arrays with matching first dimension. -/
def mtData : List NpArray := [⟨.int64, [[1], [2]]⟩, ⟨.int64, [[3], [4]]⟩]

/-- The adapter MultiTensorDataset.init builds over mtData with the
default identity transform. -/
def dsMT : MultiTensorDataset :=
  ⟨[⟨.float32, [[1], [2]]⟩, ⟨.float32, [[3], [4]]⟩], fun x => x⟩

/-- A concrete one-array NumpyDataset adapter. -/
def dsNp : NumpyDataset := ⟨[⟨.int64, [[1]]⟩]⟩

section Lemmas

lemma leadsWith_self_append : ∀ (p ys : List Char), leadsWith p (p ++ ys) = true := by
  intro p
  induction p with
  | nil => intro ys; rfl
  | cons a as ih =>
    intro ys
    simp [leadsWith, ih]

lemma listOccurs_nil : ∀ s : List Char, listOccurs [] s = true := by
  intro s
  induction s with
  | nil => rfl
  | cons c rest ih => simp [listOccurs, leadsWith, ih]

lemma listOccurs_append : ∀ (xs p ys : List Char), listOccurs p (xs ++ p ++ ys) = true := by
  intro xs
  induction xs with
  | nil =>
    intro p ys
    cases p with
    | nil => simpa using listOccurs_nil ys
    | cons a as =>
      simp only [List.nil_append, List.cons_append, listOccurs]
      have := leadsWith_self_append (a :: as) ys
      simp only [List.cons_append] at this
      simp [this]
  | cons x xs ih =>
    intro x1 ys
    simp only [List.cons_append, listOccurs, Bool.or_eq_true]
    exact Or.inr (ih x1 ys)

lemma h5loop_ok_some (fid : H5File) :
    ∀ (keys : List String) (n : Nat) (m' : Option Nat),
      h5loop fid (some n) keys = .ok m' →
      m' = some n ∧ ∀ k ∈ keys, ∃ a, fid.find k = some a ∧ a.rows.length = n := by
  intro keys
  induction keys with
  | nil =>
    intro n m' h
    simp [h5loop] at h
    simp [h]
  | cons key rest ih =>
    intro n m' h
    cases hf : fid.find key with
    | none => simp [h5loop, hf] at h
    | some a =>
      simp only [h5loop, hf] at h
      by_cases hn : n = a.rows.length
      · rw [if_pos hn] at h
        rcases ih n m' h with ⟨hm, hall⟩
        refine ⟨hm, ?_⟩
        intro k hk
        rcases List.mem_cons.mp hk with hk | hk
        · exact ⟨a, by rw [hk]; exact hf, hn.symm⟩
        · exact hall k hk
      · rw [if_neg hn] at h
        exact absurd h (by simp)

lemma h5loop_err (fid : H5File) :
    ∀ (keys : List String) (m : Option Nat) (e : PyErr),
      h5loop fid m keys = .error e →
      e = .assertionError ("Length of datasets do not match")
      ∨ ∃ k ∈ keys, fid.find k = none
          ∧ e = .assertionError ("Could not find " ++ k ++ " in file") := by
  intro keys
  induction keys with
  | nil =>
    intro m e h
    simp [h5loop] at h
  | cons key rest ih =>
    intro m e h
    cases hf : fid.find key with
    | none =>
      simp only [h5loop, hf] at h
      right
      refine ⟨key, List.mem_cons_self key rest, hf, ?_⟩
      simp at h
      exact h.symm
    | some a =>
      cases m with
      | none =>
        simp only [h5loop, hf] at h
        rcases ih (some a.rows.length) e h with h1 | ⟨k, hk, hfk, he⟩
        · exact Or.inl h1
        · exact Or.inr ⟨k, List.mem_cons_of_mem key hk, hfk, he⟩
      | some n =>
        simp only [h5loop, hf] at h
        by_cases hn : n = a.rows.length
        · rw [if_pos hn] at h
          rcases ih (some n) e h with h1 | ⟨k, hk, hfk, he⟩
          · exact Or.inl h1
          · exact Or.inr ⟨k, List.mem_cons_of_mem key hk, hfk, he⟩
        · rw [if_neg hn] at h
          left
          have := h
          simp at this
          exact this.symm

lemma gatherH5_ok (fid : H5File) (i : Nat) :
    ∀ (keys : List String) (item : List Val),
      gatherH5 fid i keys = .ok item →
      item.length = keys.length
      ∧ ∀ (j : Nat) (d : String), keys.get? j = some d →
          ∃ v, fid.fetchRow d i = some v ∧ item.get? j = some v := by
  intro keys
  induction keys with
  | nil =>
    intro item h
    simp [gatherH5] at h
    subst h
    exact ⟨rfl, by intro j d hd; simp at hd⟩
  | cons d rest ih =>
    intro item h
    cases hf : fid.fetchRow d i with
    | none => simp [gatherH5, hf] at h
    | some v =>
      simp only [gatherH5, hf] at h
      cases hg : gatherH5 fid i rest with
      | error e => simp [hg] at h
      | ok vs =>
        rw [hg] at h
        have hit : item = v :: vs := by
          simp at h
          exact h.symm
        subst hit
        rcases ih vs hg with ⟨hlen, hall⟩
        constructor
        · simp [hlen]
        · intro j k hk
          cases j with
          | zero =>
            simp at hk
            subst hk
            exact ⟨v, hf, rfl⟩
          | succ j' =>
            simp only [List.get?] at hk ⊢
            exact hall j' k hk

lemma gatherT_all (i : Nat) :
    ∀ (tdata : List Tensor), (∀ d ∈ tdata, i < d.rows.length) →
      gatherT i tdata
        = .ok (tdata.map (fun d => Val.tRow d.dtype (d.rows.getD i []))) := by
  intro tdata
  induction tdata with
  | nil => intro _; rfl
  | cons d rest ih =>
    intro h
    have hd : i < d.rows.length := h d (List.mem_cons_self d rest)
    have hr : d.rows.get? i = some (d.rows.getD i []) := by
      rw [List.getD_eq_getElem?_getD, List.get?_eq_getElem?]
      rw [List.getElem?_eq_getElem hd]
      rfl
    simp only [gatherT, hr]
    rw [ih (fun x hx => h x (List.mem_cons_of_mem d hx))]
    rfl

lemma tffLoop_fst_length (ds : DatasetView) :
    ∀ keys : List String, ((tffLoop ds keys).1).length = keys.length := by
  intro keys
  induction keys with
  | nil => rfl
  | cons d rest ih =>
    simp only [tffLoop]
    cases ds.attr (d ++ "_transform") with
    | some f => simpa using ih
    | none => simpa using ih

lemma tffLoop_fst_get? (ds : DatasetView) :
    ∀ (keys : List String) (j : Nat),
      ((tffLoop ds keys).1).get? j
        = (keys.get? j).map (fun d => (ds.attr (d ++ "_transform")).getD (fun x => x)) := by
  intro keys
  induction keys with
  | nil => intro j; cases j <;> rfl
  | cons d rest ih =>
    intro j
    simp only [tffLoop]
    cases hf : ds.attr (d ++ "_transform") with
    | some f =>
      cases j with
      | zero => simp [hf]
      | succ j' => simpa using ih j'
    | none =>
      cases j with
      | zero => simp [hf]
      | succ j' => simpa using ih j'

lemma tffLoop_id (ds : DatasetView) :
    ∀ keys : List String, (∀ k ∈ keys, ds.attr (k ++ "_transform") = none) →
      (tffLoop ds keys).1 = keys.map (fun _ => (fun x => x)) := by
  intro keys
  induction keys with
  | nil => intro _; rfl
  | cons d rest ih =>
    intro h
    have hd := h d (List.mem_cons_self d rest)
    simp only [tffLoop, hd]
    rw [ih (fun k hk => h k (List.mem_cons_of_mem d hk))]
    rfl

lemma zipWith_apply_get? {α β : Type} (f : (α → β) → α → β) :
    ∀ (ts : List (α → β)) (item : List α) (j : Nat),
      (List.zipWith f ts item).get? j
        = Option.bind (ts.get? j) (fun tr => (item.get? j).map (f tr)) := by
  intro ts
  induction ts with
  | nil => intro item j; cases item <;> cases j <;> rfl
  | cons t ts ih =>
    intro item j
    cases item with
    | nil =>
      cases j with
      | zero => rfl
      | succ j' =>
        show (List.get? [] (j' + 1)) = _
        cases hts : (t :: ts).get? (j' + 1) <;> simp [hts]
    | cons it item' =>
      cases j with
      | zero => rfl
      | succ j' => simpa using ih item' j'

lemma zipWith_apply_ids :
    ∀ (keys : List String) (item : List Val), item.length ≤ keys.length →
      List.zipWith (fun tr it => tr it)
        (keys.map (fun _ => (fun x => x : Val → Val))) item = item := by
  intro keys
  induction keys with
  | nil =>
    intro item h
    have : item = [] := List.length_eq_zero.mp (Nat.le_zero.mp h)
    simp [this]
  | cons d rest ih =>
    intro item h
    cases item with
    | nil => rfl
    | cons it item' =>
      simp only [List.map, List.zipWith]
      rw [ih item' (by simpa using h)]

lemma to_variable_someMask (cuda : Bool) (kwargs : Opts) (f : List Bool) :
    ∀ it : List (List Val),
      to_variable it cuda (some f) kwargs = it.map (convertOne f cuda kwargs) := by
  intro it
  induction it with
  | nil => rfl
  | cons elem rest ih =>
    simp only [to_variable, Option.getD, List.map]
    rw [ih]

end Lemmas

/-- C2: for a dataset built with a bare TransformFromFuncs transform, at
every field position j with key kj: if the dataset carries an attribute
kj_transform = f then the transformed item at index i holds f applied to
the raw slice of that field at i, and if it carries none the raw slice
passes through unchanged. -/
theorem claim2_theorem :
    ∀ (fid : H5File) (keys : List String) (attr : String → Option (Val → Val))
      (ds : H5Dataset) (i : Nat) (out : List Val) (j : Nat) (kj : String),
      H5Dataset.init fid keys attr (some (.fromFuncs TransformFromFuncs.new)) = .ok ds →
      H5Dataset.getitem ds i = .ok out →
      keys.get? j = some kj →
      (∀ f, attr (kj ++ "_transform") = some f →
        ∃ v, fid.fetchRow kj i = some v ∧ out.get? j = some (f v))
      ∧ (attr (kj ++ "_transform") = none →
        ∃ v, fid.fetchRow kj i = some v ∧ out.get? j = some v) := by
  intro fid keys attr ds i out j kj hinit hget hkj
  cases hres : h5loop fid none keys with
  | error e => simp [H5Dataset.init, hres] at hinit
  | ok m =>
    simp only [H5Dataset.init, hres] at hinit
    have hds : ds = ⟨fid, keys, m,
        Transform.setup (.fromFuncs TransformFromFuncs.new) ⟨keys, attr⟩⟩ := by
      cases hinit
      rfl
    subst hds
    simp only [H5Dataset.getitem] at hget
    cases hg : gatherH5 fid i keys with
    | error e => rw [hg] at hget; simp at hget
    | ok item =>
      rw [hg] at hget
      simp at hget
      rcases gatherH5_ok fid i keys item hg with ⟨_, hall⟩
      rcases hall j kj hkj with ⟨v, hfv, hitem⟩
      have hout : ∀ tr : Option (Val → Val), attr (kj ++ "_transform") = tr →
          out.get? j = some ((tr.getD (fun x => x)) v) := by
        intro tr htr
        rw [← hget]
        show (List.zipWith (fun tr it => tr it)
            (tffLoop ⟨keys, attr⟩ keys).1 item).get? j = _
        rw [zipWith_apply_get?]
        rw [tffLoop_fst_get?]
        simp only [hkj, hitem, Option.map_some', Option.some_bind]
        show some ((attr (kj ++ "_transform")).getD (fun x => x) v) = _
        rw [htr]
      constructor
      · intro f hf
        refine ⟨v, hfv, ?_⟩
        simpa using hout (some f) hf
      · intro hf
        refine ⟨v, hfv, ?_⟩
        simpa using hout none hf

/-- C2 witness: on the concrete two-field file where only x carries a
hook, the transformed item at index 0 holds the hook's output at the x
position. -/
theorem claim2_witness :
    ∃ v, fidXY.fetchRow "x" 0 = some v
      ∧ [Val.pyInt 42, Val.npRow .int64 [5]].get? 0 = some (fx v) :=
  (claim2_theorem fidXY ["x", "y"] attrX dsXY 0
      [Val.pyInt 42, Val.npRow .int64 [5]] 0 "x" rfl rfl rfl).1 fx rfl

/-- C1 counterexample: the claim says the file-backed adapter's
length-mismatch failure names the offending key; on keys a and b with
lengths 1 and 2 the error carries the fixed message, which does not
contain the offending key b. -/
theorem claim1_counterexample :
    H5Dataset.init fidMM ["a", "b"] (fun _ => none) none
      = .error (.assertionError ("Length of datasets do not match"))
    ∧ namesKey ("b") ("Length of datasets do not match") = false := by
  exact ⟨rfl, by decide⟩

/-- C1 (amended): on every adapter, construction from fields whose first
dimensions are not all equal fails with an assertion (configuration)
error; for the file-backed adapter a missing key fails with a message
naming that key, while a length mismatch fails with the fixed message
"Length of datasets do not match" (which does not name the key). -/
theorem claim1_theorem :
    (∀ (fid : H5File) (keys : List String) (attr : String → Option (Val → Val))
        (ki kj : String) (ai aj : NpArray),
        ki ∈ keys → kj ∈ keys →
        fid.find ki = some ai → fid.find kj = some aj →
        ai.rows.length ≠ aj.rows.length →
        (∀ k ∈ keys, (fid.find k).isSome = true) →
        H5Dataset.init fid keys attr none
          = .error (.assertionError ("Length of datasets do not match")))
    ∧ (∀ (fid : H5File) (keys : List String)
        (attr : String → Option (Val → Val)) (e : PyErr),
        H5Dataset.init fid keys attr none = .error e →
        e = .assertionError ("Length of datasets do not match")
        ∨ ∃ k ∈ keys, fid.find k = none
            ∧ e = .assertionError ("Could not find " ++ k ++ " in file")
            ∧ namesKey k ("Could not find " ++ k ++ " in file") = true)
    ∧ (∀ (data : List NpArray) (tr : Option (List Val → List Val))
        (d0 : NpArray) (rest : List NpArray) (d : NpArray),
        data = d0 :: rest → d ∈ data → d.shape0 ≠ d0.shape0 →
        MultiTensorDataset.init data tr
          = .error (.assertionError ("datasets must have same first dimension")))
    ∧ (∀ (data : List NpArray) (d0 : NpArray) (rest : List NpArray) (d : NpArray),
        data = d0 :: rest → d ∈ data → d.shape0 ≠ d0.shape0 →
        NumpyDataset.init data
          = .error (.assertionError ("datasets must have same first dimension")))
    ∧ (∀ (data : List (List Val)) (tr : Option (List Val → List Val))
        (d0 : List Val) (rest : List (List Val)) (d : List Val),
        data = d0 :: rest → d ∈ data → d.length ≠ d0.length →
        ListDataset.init data tr
          = .error (.assertionError ("datasets must have same first dimension"))) := by
  refine ⟨?_, ?_, ?_, ?_, ?_⟩
  · intro fid keys attr ki kj ai aj hki hkj hfi hfj hne hall
    cases hres : h5loop fid none keys with
    | ok m =>
      exfalso
      cases keys with
      | nil => exact absurd hki (List.not_mem_nil ki)
      | cons k0 rest =>
        cases hf0 : fid.find k0 with
        | none => simp [h5loop, hf0] at hres
        | some a0 =>
          simp only [h5loop, hf0] at hres
          rcases h5loop_ok_some fid rest a0.rows.length m hres with ⟨_, hrest⟩
          have hlen : ∀ k a, k ∈ k0 :: rest → fid.find k = some a →
              a.rows.length = a0.rows.length := by
            intro k a hk hfa
            rcases List.mem_cons.mp hk with hk | hk
            · subst hk
              rw [hf0] at hfa
              injection hfa with h1
              rw [← h1]
            · rcases hrest k hk with ⟨a2, hfa2, hl2⟩
              rw [hfa] at hfa2
              injection hfa2 with h1
              rw [h1]
              exact hl2
          exact hne ((hlen ki ai hki hfi).trans (hlen kj aj hkj hfj).symm)
    | error e =>
      rcases h5loop_err fid keys none e hres with h1 | ⟨k, hk, hfk, _⟩
      · simp [H5Dataset.init, hres, h1]
      · have hsk := hall k hk
        rw [hfk] at hsk
        simp at hsk
  · intro fid keys attr e hinit
    cases hres : h5loop fid none keys with
    | ok m => simp [H5Dataset.init, hres] at hinit
    | error e2 =>
      simp only [H5Dataset.init, hres] at hinit
      have he : e2 = e := by
        simpa using hinit
      subst he
      rcases h5loop_err fid keys none e2 hres with h1 | ⟨k, hk, hfk, hke⟩
      · exact Or.inl h1
      · refine Or.inr ⟨k, hk, hfk, hke, ?_⟩
        unfold namesKey
        rw [show ("Could not find " ++ k ++ " in file").toList
              = ("Could not find ").toList ++ k.toList ++ (" in file").toList from by
            simp [String.toList]]
        exact listOccurs_append _ _ _
  · intro data tr d0 rest d hdata hmem hne
    subst hdata
    have hfalse : ¬ (sameFirstDim (d0 :: rest) = true) := by
      simp only [sameFirstDim]
      intro hall
      exact hne (by simpa using List.all_eq_true.mp hall d hmem)
    simp only [MultiTensorDataset.init]
    rw [if_neg hfalse]
  · intro data d0 rest d hdata hmem hne
    subst hdata
    have hfalse : ¬ (sameFirstDim (d0 :: rest) = true) := by
      simp only [sameFirstDim]
      intro hall
      exact hne (by simpa using List.all_eq_true.mp hall d hmem)
    simp only [NumpyDataset.init]
    rw [if_neg hfalse]
  · intro data tr d0 rest d hdata hmem hne
    subst hdata
    have hfalse : ¬ (sameListLen (d0 :: rest) = true) := by
      simp only [sameListLen]
      intro hall
      exact hne (by simpa using List.all_eq_true.mp hall d hmem)
    simp only [ListDataset.init]
    rw [if_neg hfalse]

/-- C1 witness: each conjunct at a concrete mismatched input: the H5
adapter on fidMM, the missing-key case on an empty file, and the three
in-memory adapters on length-1 and length-2 fields. -/
theorem claim1_witness :
    H5Dataset.init fidMM ["a", "b"] (fun _ => none) none
      = .error (.assertionError ("Length of datasets do not match"))
    ∧ (PyErr.assertionError ("Could not find k in file")
          = .assertionError ("Length of datasets do not match")
        ∨ ∃ kk ∈ ["k"], H5File.find ⟨[]⟩ kk = none
            ∧ PyErr.assertionError ("Could not find k in file")
                = .assertionError ("Could not find " ++ kk ++ " in file")
            ∧ namesKey kk ("Could not find " ++ kk ++ " in file") = true)
    ∧ MultiTensorDataset.init [⟨.int64, [[1]]⟩, ⟨.int64, [[1], [2]]⟩] none
        = .error (.assertionError ("datasets must have same first dimension"))
    ∧ NumpyDataset.init [⟨.int64, [[1]]⟩, ⟨.int64, [[1], [2]]⟩]
        = .error (.assertionError ("datasets must have same first dimension"))
    ∧ ListDataset.init [[Val.pyInt 1], [Val.pyInt 1, Val.pyInt 2]] none
        = .error (.assertionError ("datasets must have same first dimension")) := by
  refine ⟨?_, ?_, ?_, ?_, ?_⟩
  · exact claim1_theorem.1 fidMM ["a", "b"] (fun _ => none) ("a") ("b")
      ⟨.int64, [[1]]⟩ ⟨.int64, [[1], [2]]⟩ (by decide) (by decide) rfl rfl
      (by decide) (by decide)
  · exact claim1_theorem.2.1 ⟨[]⟩ ["k"] (fun _ => none)
      (.assertionError ("Could not find k in file")) rfl
  · exact claim1_theorem.2.2.1 [⟨.int64, [[1]]⟩, ⟨.int64, [[1], [2]]⟩] none
      ⟨.int64, [[1]]⟩ [⟨.int64, [[1], [2]]⟩] ⟨.int64, [[1], [2]]⟩ rfl
      (by decide) (by decide)
  · exact claim1_theorem.2.2.2.1 [⟨.int64, [[1]]⟩, ⟨.int64, [[1], [2]]⟩]
      ⟨.int64, [[1]]⟩ [⟨.int64, [[1], [2]]⟩] ⟨.int64, [[1], [2]]⟩ rfl
      (by decide) (by decide)
  · exact claim1_theorem.2.2.2.2 [[Val.pyInt 1], [Val.pyInt 1, Val.pyInt 2]]
      none [Val.pyInt 1] [[Val.pyInt 1, Val.pyInt 2]] [Val.pyInt 1, Val.pyInt 2]
      rfl (by decide) (by decide)

/-- C3 counterexample: the claim quantifies over every input tuple; on a
one-field dataset with no custom hooks, a two-element tuple is truncated
by the chain (python zip pairs it with the single bound function) while
type-coercion alone converts both elements, so the two outputs differ. -/
theorem claim3_counterexample :
    (Transform.setup
        (Transform.chain [.fromFuncs TransformFromFuncs.new, .toTensor]) c3view).call
        [Val.npRow .int64 [1], Val.npRow .int64 [2]]
      ≠ Transform.call Transform.toTensor
          [Val.npRow .int64 [1], Val.npRow .int64 [2]] := by
  decide

/-- C3 (amended): for every dataset with no custom per-field hook and
every input tuple whose arity does not exceed the dataset's field count,
the chain of identity-by-field then type-coercion, both initialized
against that dataset, produces the same output as type-coercion alone. -/
theorem claim3_theorem :
    ∀ (ds : DatasetView) (item : List Val),
      (∀ k ∈ ds.data_keys, ds.attr (k ++ "_transform") = none) →
      item.length ≤ ds.data_keys.length →
      (Transform.setup
          (Transform.chain [.fromFuncs TransformFromFuncs.new, .toTensor]) ds).call item
        = Transform.call Transform.toTensor item := by
  intro ds item hnone hlen
  simp only [Transform.setup, setupList, Transform.call, callChain,
    TransformFromFuncs.setup, TransformFromFuncs.call, TransformFromFuncs.new]
  rw [tffLoop_id ds ds.data_keys hnone]
  rw [zipWith_apply_ids ds.data_keys item hlen]

/-- C3 witness: on the concrete no-hook one-field dataset and a one-element
tuple the chain and bare type-coercion agree. -/
theorem claim3_witness :
    (Transform.setup
        (Transform.chain [.fromFuncs TransformFromFuncs.new, .toTensor]) c3view).call
        [Val.npRow .int64 [1]]
      = Transform.call Transform.toTensor [Val.npRow .int64 [1]] :=
  claim3_theorem c3view [Val.npRow .int64 [1]]
    (by intro k hk; rfl) (by decide)

/-- C4: for the coerced in-memory adapter built with the default identity
transform, item_at(i) returns, at every field position, exactly the
floating-point coercion of that raw array's slice at i (torch.from_numpy
of the float32 cast of raw_field[i]). -/
theorem claim4_theorem :
    ∀ (data : List NpArray) (ds : MultiTensorDataset) (i : Nat),
      MultiTensorDataset.init data none = .ok ds →
      (∀ d ∈ data, i < d.rows.length) →
      MultiTensorDataset.getitem ds i
        = .ok (data.map (fun d => toFloatSlice d i)) := by
  intro data ds i hinit hlt
  cases hsd : sameFirstDim data with
  | false => simp [MultiTensorDataset.init, hsd] at hinit
  | true =>
    simp only [MultiTensorDataset.init, hsd, if_true] at hinit
    have hds : ds = ⟨data.map (fun d => torchFromNumpy (d.astype .float32)),
        Option.getD none (fun x => x)⟩ := by
      cases hinit
      rfl
    subst hds
    simp only [MultiTensorDataset.getitem]
    rw [gatherT_all i _ ?_]
    · rw [List.map_map]
      rfl
    · intro t ht
      rcases List.mem_map.mp ht with ⟨d, hd, hdt⟩
      have : t.rows = d.rows := by rw [← hdt]; rfl
      rw [this]
      exact hlt d hd

/-- C4 witness: on the concrete two-array adapter, item_at(0) is the
float32 coercion of each raw slice at 0. -/
theorem claim4_witness :
    MultiTensorDataset.getitem dsMT 0
      = .ok (mtData.map (fun d => toFloatSlice d 0)) :=
  claim4_theorem mtData dsMT 0 rfl (by decide)

/-- C5: the claim asserts that item_at(length()) fails out of range on
every adapter; on ListDataset the code's __len__ returns the number of
owned sequences (2 here), and __getitem__ at that index succeeds,
returning the third element of each of the two length-3 sequences. -/
theorem claim5_theorem :
    ListDataset.init dsL.data none = .ok dsL
    ∧ ListDataset.len dsL = 2
    ∧ ListDataset.getitem dsL (ListDataset.len dsL)
        = .ok [Val.pyInt 3, Val.pyInt 7] :=
  ⟨rfl, rfl, rfl⟩

/-- C6: to_variable on [(1,2),(3,4)] with cuda=False and mask
(True, False) yields exactly [(Variable(1,opts), 2), (Variable(3,opts), 4)]:
mask-true positions are wrapped with the supplied options and no device
move, mask-false positions pass through unmodified. -/
theorem claim6_theorem :
    ∀ kwargs : Opts,
      to_variable [[Val.pyInt 1, Val.pyInt 2], [Val.pyInt 3, Val.pyInt 4]]
          false (some [true, false]) kwargs
        = [[.varWrap (Val.pyInt 1) kwargs, .plain (Val.pyInt 2)],
           [.varWrap (Val.pyInt 3) kwargs, .plain (Val.pyInt 4)]] := by
  intro kwargs
  rfl

/-- C7 counterexample: the claim says a later element of different arity
fails with an index error; on [(1,2),(3,4,5)] with no mask the second
element is processed without any error, silently truncated by zip to the
inferred two-position mask. -/
theorem claim7_counterexample :
    to_variable
        [[Val.pyInt 1, Val.pyInt 2], [Val.pyInt 3, Val.pyInt 4, Val.pyInt 5]]
        false none []
      = [[.varWrap (Val.pyInt 1) [], .varWrap (Val.pyInt 2) []],
         [.varWrap (Val.pyInt 3) [], .varWrap (Val.pyInt 4) []]] := rfl

/-- C7 (amended): when no mask is supplied, an all-true mask matching the
first element's arity is inferred exactly once and held fixed for every
subsequent element; a later element whose arity differs is processed
without error, zipped against the fixed mask, so its output is truncated
to the shorter of mask and element. -/
theorem claim7_theorem :
    ∀ (e0 : List Val) (rest : List (List Val)) (cuda : Bool) (kwargs : Opts),
      to_variable (e0 :: rest) cuda none kwargs
        = convertOne (List.replicate e0.length true) cuda kwargs e0
          :: rest.map (convertOne (List.replicate e0.length true) cuda kwargs)
      ∧ ∀ elem : List Val,
          (convertOne (List.replicate e0.length true) cuda kwargs elem).length
            = min e0.length elem.length := by
  intro e0 rest cuda kwargs
  constructor
  · simp only [to_variable, Option.getD]
    rw [to_variable_someMask]
  · intro elem
    simp [convertOne, List.length_zipWith]

/-- C8: NumpyDataset.__len__ evaluates self.data[0].shape(0), calling the
shape tuple as a function; it therefore never returns the shared first
dimension, and on any adapter with at least one field it raises
TypeError. -/
theorem claim8_theorem :
    ∀ ds : NumpyDataset,
      (∃ e, NumpyDataset.len ds = .error e)
      ∧ (ds.data ≠ [] → NumpyDataset.len ds = .error .typeError) := by
  intro ds
  cases hd : ds.data with
  | nil =>
    refine ⟨⟨.indexError, by simp [NumpyDataset.len, hd]⟩, ?_⟩
    intro h
    exact absurd rfl h
  | cons d rest =>
    refine ⟨⟨.typeError, by simp [NumpyDataset.len, hd, pyCall]⟩, ?_⟩
    intro _
    simp [NumpyDataset.len, hd, pyCall]

/-- C8 witness: on the concrete one-array adapter the length query raises
TypeError. -/
theorem claim8_witness : NumpyDataset.len dsNp = .error .typeError :=
  (claim8_theorem dsNp).2 (by decide)

/-- C9: as_variables(**opts) returns one Variable wrapper per stored
field, each wrapping that field with the supplied options, and the
adapter it leaves behind is the unchanged receiver (no mutation). -/
theorem claim9_theorem :
    ∀ (ds : MultiTensorDataset) (kwargs : Opts),
      (MultiTensorDataset.as_variables ds kwargs).2 = ds
      ∧ ((MultiTensorDataset.as_variables ds kwargs).1).length = ds.data.length
      ∧ ∀ j : Nat,
          ((MultiTensorDataset.as_variables ds kwargs).1).get? j
            = (ds.data.get? j).map (fun v => ⟨v, kwargs⟩) := by
  intro ds kwargs
  refine ⟨rfl, by simp [MultiTensorDataset.as_variables], ?_⟩
  intro j
  simp [MultiTensorDataset.as_variables, List.get?_eq_getElem?, List.getElem?_map]

/-- C10: initializing a TransformFromFuncs a second time against the same
dataset leaves its apply behaviour unchanged (the bound-function list is
rebuilt from scratch), but appends the customized field names onto the
recorded list again, so the state is not idempotent and the diagnostic
description of the concrete one-hook dataset lists its field twice. -/
theorem claim10_theorem :
    ∀ (ds : DatasetView) (item : List Val),
      (TransformFromFuncs.setup (TransformFromFuncs.setup TransformFromFuncs.new ds) ds).call item
        = (TransformFromFuncs.setup TransformFromFuncs.new ds).call item
      ∧ (TransformFromFuncs.setup (TransformFromFuncs.setup TransformFromFuncs.new ds) ds).transformees
          = (TransformFromFuncs.setup TransformFromFuncs.new ds).transformees
            ++ (TransformFromFuncs.setup TransformFromFuncs.new ds).transformees
      ∧ TransformFromFuncs.descr
            (TransformFromFuncs.setup (TransformFromFuncs.setup TransformFromFuncs.new vX) vX)
          = "TransformFromFuncs(x, x)" := by
  intro ds item
  refine ⟨rfl, ?_, rfl⟩
  simp [TransformFromFuncs.setup, TransformFromFuncs.new]

end Attorch
